import Mathlib

/-!
Verification of the WealthAgents agent core (Planner / Executor / Reflector /
Memory) against its natural-language specification.

The Python sources under `app/agent/` are shallowly embedded: dicts become
structures or association lists, tool invocation becomes an explicit behaviour
value (returned dict / returned raw value / raised exception), wall-clock time
and external stores (Redis, vector index) become explicit parameters, and
`float` quantities become rationals.

The file is organised as definitions first (the embedding), then lemmas and
the claim theorems.
-/

set_option maxHeartbeats 2000000
set_option maxRecDepth 16000

namespace WealthAgents

/-- A Python-value universe for dict payloads that flow through the agent
(tool parameters, tool results, the chat envelope). -/
inductive PyVal where
  | pyNone
  | str (s : String)
  | num (q : ℚ)
  | boolean (b : Bool)
  | list (xs : List PyVal)
  | dict (fields : List (String × PyVal))

/-- Python `d.get(k)` on a dict represented as an association list:
first binding wins (our setters keep keys unique). -/
def lookupA {α : Type} (l : List (String × α)) (k : String) : Option α :=
  (l.find? (fun p => p.1 == k)).map (fun p => p.2)

/-- Python `d[k] = v` on a dict represented as an association list:
replaces any existing binding for `k`. -/
def assocSet {α : Type} (l : List (String × α)) (k : String) (v : α) :
    List (String × α) :=
  (k, v) :: l.filter (fun p => p.1 != k)

/-- Python `del d[k]`. -/
def assocDelete {α : Type} (l : List (String × α)) (k : String) :
    List (String × α) :=
  l.filter (fun p => p.1 != k)

/- `app/agent/utils/error_handler.py`, `ErrorCodes` (the codes the
executor uses). -/
namespace ErrorCodes

def SUCCESS : Nat := 0
def TOOL_NOT_FOUND : Nat := 2000
def TOOL_EXECUTION_ERROR : Nat := 2001
def EXECUTION_ERROR : Nat := 6001

end ErrorCodes

/-- `app/agent/executor.py`: the task dict fields `execute_plan` reads
(`id`, `name`, `tool_name`, `params`/`parameters`, `dependencies`,
`timestamp`). -/
structure Task where
  id : String
  name : String
  tool_name : String
  params : List (String × PyVal)
  dependencies : List String
  timestamp : ℚ

/-- The result-dict shape produced by `execute_plan`: either the tool's dict
(with `task_id`/`task_name`/`tool_name`/`execution_time` patched in), the
wrapper around a non-dict return, or a `create_error` dict. `status` is
`none` when the dict carries no `status` key (the non-dict wrapper). -/
structure TaskResult where
  status : Option String
  error_code : Option Nat := none
  error_message : Option String := none
  task_id : String := ""
  task_name : String := ""
  tool_name : String := ""
  dependencies : Option (List String) := none
  missing_dependencies : Option (List String) := none
  exception : Option String := none
  data : Option PyVal := none

/-- The observable behaviour of one tool invocation: the tool returned a dict
(whose `status` field we record), returned a non-dict value, or raised. -/
inductive ToolBeh where
  | retDict (status : Option String)
  | retRaw (v : PyVal)
  | raises (msg : String)

/-- A registered tool, as invoked by the executor: it receives the task's
params and the injected `dependency_results` map. -/
def Tool : Type := List (String × PyVal) → List (String × TaskResult) → ToolBeh

namespace Executor

/-- `executor.py` lines 62-74: `create_error(EXECUTION_ERROR, ...)` for a task
whose dependencies are not all in the running result map. -/
def depUnmetResult (t : Task) (missing : List String) : TaskResult :=
  { status := some "error"
    error_code := some ErrorCodes.EXECUTION_ERROR
    error_message := some "依赖任务未完成，无法执行当前任务"
    task_id := t.id
    task_name := t.name
    tool_name := t.tool_name
    dependencies := some t.dependencies
    missing_dependencies := some missing }

/-- `executor.py` lines 77-87: `create_error(TOOL_NOT_FOUND, ...)`. -/
def toolNotFoundResult (t : Task) : TaskResult :=
  { status := some "error"
    error_code := some ErrorCodes.TOOL_NOT_FOUND
    error_message := some ("工具 " ++ t.tool_name ++ " 未注册")
    task_id := t.id
    task_name := t.name
    tool_name := t.tool_name }

/-- `executor.py` lines 129-140: `create_error(TOOL_EXECUTION_ERROR, ...)`
wrapping a raised exception. -/
def toolExecErrorResult (t : Task) (msg : String) : TaskResult :=
  { status := some "error"
    error_code := some ErrorCodes.TOOL_EXECUTION_ERROR
    error_message := some ("任务执行失败: " ++ msg)
    task_id := t.id
    task_name := t.name
    tool_name := t.tool_name
    exception := some msg }

/-- One iteration of the `for task in sorted_tasks` loop body of
`execute_plan`, given the running `task_id_to_result` map `acc`. -/
def executeStep (tools : List (String × Tool)) (acc : List (String × TaskResult))
    (t : Task) : TaskResult :=
  let missing := t.dependencies.filter (fun d => (lookupA acc d).isNone)
  if missing.isEmpty then
    match lookupA tools t.tool_name with
    | none => toolNotFoundResult t
    | some tool =>
      let depResults := t.dependencies.filterMap
        (fun d => (lookupA acc d).map (fun r => (d, r)))
      match tool t.params depResults with
      | ToolBeh.raises msg => toolExecErrorResult t msg
      | ToolBeh.retRaw v =>
        { status := none, data := some v, task_id := t.id, task_name := t.name
          tool_name := t.tool_name }
      | ToolBeh.retDict st =>
        { status := st, task_id := t.id, task_name := t.name
          tool_name := t.tool_name }
  else depUnmetResult t missing

/-- The loop of `execute_plan`: every processed task appends exactly one
result and records it (success or error alike) in `task_id_to_result`. -/
def executeLoop (tools : List (String × Tool)) :
    List Task → List (String × TaskResult) → List TaskResult
  | [], _ => []
  | t :: rest, acc =>
    let r := executeStep tools acc t
    r :: executeLoop tools rest ((t.id, r) :: acc)

/-- The `task_id_to_result` map after processing a list of tasks. -/
def runAcc (tools : List (String × Tool)) :
    List (String × TaskResult) → List Task → List (String × TaskResult)
  | acc, [] => acc
  | acc, t :: rest => runAcc tools ((t.id, executeStep tools acc t) :: acc) rest

/-- Stable insertion step for `sorted(plan, key=lambda x: x.get('timestamp', 0))`:
a task is placed after every earlier task with a smaller-or-equal timestamp. -/
def insertByTimestamp (t : Task) : List Task → List Task
  | [] => [t]
  | u :: us =>
    if u.timestamp ≤ t.timestamp then u :: insertByTimestamp t us
    else t :: u :: us

/-- `sorted(plan, key=...)` — a stable sort by timestamp. -/
def sortTasks (plan : List Task) : List Task :=
  plan.foldl (fun s t => insertByTimestamp t s) []

/-- `Executor.execute_plan` (`executor.py` lines 24-143): sort by timestamp,
then run every task sequentially against the running result map, starting
from an empty map. -/
def execute_plan (tools : List (String × Tool)) (plan : List Task) :
    List TaskResult :=
  executeLoop tools (sortTasks plan) []

/-- `Executor.execute_task` (`executor.py` lines 146-157). -/
def execute_task (tools : List (String × Tool)) (t : Task) : TaskResult :=
  (execute_plan tools [t]).headD { status := none }

end Executor

/-- `app/agent/memory.py` in-memory fallback entry shape:
`{'value': ..., 'expires_at': ...}`. -/
structure MemEntry where
  value : PyVal
  expires_at : ℚ

/-- The in-memory fallback store `self.memory_store` of `MemoryManager`
(used when Redis is unavailable; the branch in which the repository itself
implements TTL expiry). -/
abbrev MemStore := List (String × MemEntry)

namespace MemoryManager

/-- `MemoryManager.save_task_result` (`memory.py` lines 59-78), in-memory
branch: store the pickled result under `task_result:{task_id}` with a
24-hour TTL (`expires_at = now + 86400`). -/
def save_task_result (s : MemStore) (now : ℚ) (task_id : String)
    (result : PyVal) : MemStore :=
  assocSet s ("task_result:" ++ task_id) ⟨result, now + 86400⟩

/-- `MemoryManager.get_task_result` (`memory.py` lines 80-107), in-memory
branch: a hit before expiry returns the value and leaves the store alone; an
expired entry is deleted by the same call and a miss is returned; an absent
key is a miss. The second component is the store after the call. -/
def get_task_result (s : MemStore) (now : ℚ) (task_id : String) :
    Option PyVal × MemStore :=
  let key := "task_result:" ++ task_id
  match lookupA s key with
  | none => (none, s)
  | some e =>
    if now < e.expires_at then (some e.value, s)
    else (none, assocDelete s key)

end MemoryManager

/-- An ambient Memory store threaded through `Executor.execute_plan`. The
source `Executor` (`executor.py`) holds no `MemoryManager` and performs no
memory operation anywhere in `execute_plan`, so the store passes through the
call unchanged; `MemoryManager.save_task_result` has no caller on this path. -/
def Executor.execute_plan_with_memory (mem : MemStore)
    (tools : List (String × Tool)) (plan : List Task) :
    List TaskResult × MemStore :=
  (Executor.execute_plan tools plan, mem)

/-- The fields of the `reflect_on_plan_execution` result dict that
`decide_next_step` reads: `success_rate` and `failed_tasks`
(`reflector.py` lines 184-196 build the dict; 269 and 281 read it). -/
structure PlanReflection where
  success_rate : ℚ
  failed_tasks : Nat

/-- The decision dict returned by `Reflector.decide_next_step`. -/
structure Decision where
  action : String
  reason : String
  failed_tasks : Option Nat := none

namespace Reflector

/-- `Reflector.decide_next_step` (`reflector.py` lines 254-282): FINISH once
the retry budget is reached, FINISH on full success, FINISH at success rate
at least 0.8, otherwise RETRY with the failed-task count attached. -/
def decide_next_step (plan_reflection : PlanReflection)
    (max_retries : Nat := 3) (current_retry : Nat := 0) : Decision :=
  if current_retry ≥ max_retries then
    { action := "FINISH", reason := "已达到最大重试次数" }
  else if plan_reflection.success_rate = 1 then
    { action := "FINISH", reason := "所有任务执行成功" }
  else if plan_reflection.success_rate ≥ (0.8 : ℚ) then
    { action := "FINISH", reason := "大部分任务成功，可以接受" }
  else
    { action := "RETRY", reason := "部分任务失败，建议重试"
      failed_tasks := some plan_reflection.failed_tasks }

end Reflector

/-- The positional/keyword parameter names of `Reflector.decide_next_step`
(`reflector.py` line 254). -/
def decide_next_step_param_names : List String :=
  ["plan_reflection", "max_retries", "current_retry"]

/-- The keyword arguments `LangGraphAgent._decide_node` passes to
`self.reflector.decide_next_step` (`langgraph_agent.py` lines 290-296). -/
def decide_node_call_kwargs : List String :=
  ["reflection", "plan", "current_step", "max_iterations", "current_iteration"]

/-- A Python keyword call binds without raising `TypeError` only when every
keyword argument names a parameter of the callee. -/
def pyKeywordsBind (param_names kwargs : List String) : Bool :=
  kwargs.all (fun k => param_names.contains k)

/-- Concrete data: a task that depends on a task id absent from its own
plan (the id `X` only exists in Memory from an earlier iteration). -/
def taskNeedsX : Task :=
  { id := "task_b", name := "b", tool_name := "general_query", params := []
    dependencies := ["X"], timestamp := 0 }

/-- Concrete data: a task with no dependencies. -/
def taskSolo : Task :=
  { id := "task_1", name := "t1", tool_name := "general_query", params := []
    dependencies := [], timestamp := 0 }

/-- Concrete data: a registry whose only tool always returns a
`status: success` dict. -/
def toolsAlwaysOk : List (String × Tool) :=
  [("general_query", fun _ _ => ToolBeh.retDict (some "success"))]

/-- Concrete data: a Memory store already holding a task result under
`task_result:X`. -/
def memWithX : MemStore :=
  MemoryManager.save_task_result [] 0 "X" (PyVal.str "ok")

/-- The interaction record pickled by `save_interaction`
(`memory.py` lines 382-387). -/
structure Interaction where
  user_id : String
  query : String
  response : PyVal
  timestamp : ℚ

/-- One member of a Redis sorted set: member string and score. -/
structure ZMember where
  member : String
  score : ℚ

/-- Insert a member into a score-sorted list (ascending by score, ties
broken by member string, as in Redis), assuming the list is sorted. -/
def zinsertSorted (e : ZMember) : List ZMember → List ZMember
  | [] => [e]
  | x :: xs =>
    if x.score < e.score ∨ (x.score = e.score ∧ x.member ≤ e.member) then
      x :: zinsertSorted e xs
    else e :: x :: xs

/-- Redis `ZADD key {member: score}`: update-or-insert the member. -/
def zadd (z : List ZMember) (m : String) (s : ℚ) : List ZMember :=
  zinsertSorted ⟨m, s⟩ (z.filter (fun x => x.member != m))

/-- Redis `ZRANGE key 0 (n-1)`: the `n` lowest-scored members. -/
def zrangeFirst (z : List ZMember) (n : Nat) : List String :=
  (z.take n).map ZMember.member

/-- Redis `ZREM key members`. -/
def zrem (z : List ZMember) (ms : List String) : List ZMember :=
  z.filter (fun x => !(ms.contains x.member))

/-- One user's interaction log: the per-key value entries written by `SETEX`
and the `interactions:{user}:chats` sorted set (score = timestamp). The
Redis-side TTLs (`SETEX` expiry, `EXPIRE` on the set) belong to the external
store and play no part in the trim-to-10 eviction being verified. -/
structure InteractionLog where
  kv : List (String × Interaction)
  zset : List ZMember

/-- Python `int(timestamp * 1000)` for a clock reading: `time.time()` is
nonnegative, so truncation agrees with floor and the value is
`(num * 1000) / den` in natural arithmetic. -/
def msOfTimestamp (now : ℚ) : Nat :=
  (now.num.toNat * 1000) / now.den

/-- The 16-character value key generated by `save_interaction`
(`memory.py` lines 369-379): the first 8 characters of the user id followed
by the last 8 digits of the millisecond timestamp. -/
def interactionKey (user_id : String) (nowMs : Nat) : String :=
  user_id.take 8 ++ (toString nowMs).drop ((toString nowMs).length - 8)

/-- `MemoryManager.save_interaction` (`memory.py` lines 360-427), Redis
branch: `SETEX` the record under the generated key, `ZADD` the key to the
user's sorted set with the timestamp as score, and if the cardinality now
exceeds 10, `ZRANGE` the oldest `count - 10` members, `ZREM` them from the
set and `DELETE` their value entries. -/
def MemoryManager.save_interaction (st : InteractionLog)
    (user_id query : String) (response : PyVal) (now : ℚ) : InteractionLog :=
  let nowMs := msOfTimestamp now
  let key := interactionKey user_id nowMs
  let inter : Interaction := ⟨user_id, query, response, now⟩
  let kv1 := assocSet st.kv key inter
  let z1 := zadd st.zset key now
  let count := z1.length
  if 10 < count then
    let oldest := zrangeFirst z1 (count - 10)
    { kv := kv1.filter (fun p => !(oldest.contains p.1))
      zset := zrem z1 oldest }
  else { kv := kv1, zset := z1 }

/-- Well-formedness of a user's interaction log: the index is sorted
ascending by (score, member), holds at most 10 pairwise-distinct members,
and the value store holds exactly the indexed keys — no orphaned values, no
untracked index entries. -/
def logWF (st : InteractionLog) : Prop :=
  st.zset.Pairwise
      (fun a b => a.score < b.score ∨ (a.score = b.score ∧ a.member < b.member))
    ∧ st.zset.length ≤ 10
    ∧ (st.zset.map ZMember.member).Nodup
    ∧ (st.kv.map Prod.fst).Nodup
    ∧ (st.kv.map Prod.fst).Perm (st.zset.map ZMember.member)

/-- Folding a sequence of `save_interaction` inserts for one user
(fixed query/response payloads; the timestamps drive the log). -/
def insertInteractions (st : InteractionLog) (user_id : String)
    (times : List ℚ) : InteractionLog :=
  times.foldl
    (fun s tq => MemoryManager.save_interaction s user_id "q" (PyVal.str "r") tq)
    st

/-- Concrete data: a one-entry interaction log for user `alice`. -/
def logEx1 : InteractionLog :=
  { kv := [("alice1000", ⟨"alice", "q", PyVal.str "r", 1⟩)]
    zset := [⟨"alice1000", 1⟩] }

/-- Python truthiness of a value. -/
def pyTruthy : PyVal → Bool
  | PyVal.pyNone => false
  | PyVal.str s => !s.isEmpty
  | PyVal.num q => q != 0
  | PyVal.boolean b => b
  | PyVal.list xs => !xs.isEmpty
  | PyVal.dict fs => !fs.isEmpty

/-- Python `d.get(k)` on a `PyVal` dict (missing key or non-dict gives
`None`). -/
def pyGet (v : PyVal) (k : String) : PyVal :=
  match v with
  | PyVal.dict fs => (lookupA fs k).getD PyVal.pyNone
  | _ => PyVal.pyNone

/-- Python `d.get(k, default)`. -/
def pyGetD (v : PyVal) (k : String) (d : PyVal) : PyVal :=
  match v with
  | PyVal.dict fs => (lookupA fs k).getD d
  | _ => d

/-- Python `a or b` (first truthy value). -/
def pyOr (a b : PyVal) : PyVal := if pyTruthy a then a else b

/-- Python `v == s` for a string literal `s` (false on non-strings). -/
def pyEqStr (v : PyVal) (s : String) : Bool :=
  match v with
  | PyVal.str t => t == s
  | _ => false

/-- Python `k in d` for a dict. -/
def pyHasKey (v : PyVal) (k : String) : Bool :=
  match v with
  | PyVal.dict fs => (lookupA fs k).isSome
  | _ => false

mutual

/-- A rendering of Python `str(x)`: strings render as themselves (exactly as
in the source's f-strings); the chat claims never depend on the rendering of
non-string values. -/
def pyStr : PyVal → String
  | PyVal.pyNone => "None"
  | PyVal.str s => s
  | PyVal.num q => toString q
  | PyVal.boolean b => if b then "True" else "False"
  | PyVal.list xs => "[" ++ pyStrJoin xs ++ "]"
  | PyVal.dict fs => "\x7b" ++ pyStrFields fs ++ "\x7d"

def pyStrJoin : List PyVal → String
  | [] => ""
  | [x] => pyStr x
  | x :: y :: xs => pyStr x ++ ", " ++ pyStrJoin (y :: xs)

def pyStrFields : List (String × PyVal) → String
  | [] => ""
  | [(k, v)] => k ++ ": " ++ pyStr v
  | (k, v) :: q :: fs => k ++ ": " ++ pyStr v ++ ", " ++ pyStrFields (q :: fs)

end

/-- Character-list test used to embed Python `needle in haystack`. -/
def charsHavePrefixOf : List Char → List Char → Bool
  | [], _ => true
  | _ :: _, [] => false
  | c :: cs, d :: ds => c == d && charsHavePrefixOf cs ds

/-- Character-list substring occurrence. -/
def containsChars (n : List Char) : List Char → Bool
  | [] => n.isEmpty
  | c :: cs => charsHavePrefixOf n (c :: cs) || containsChars n cs

/-- Python `needle in haystack` on strings. -/
def strContains (haystack needle : String) : Bool :=
  containsChars needle.data haystack.data

/-- Python `s.lower()`: per-character lowercase (the character-list form of
`String.toLower`, stated this way so that concrete instances evaluate). -/
def strLower (s : String) : String :=
  String.mk (s.data.map Char.toLower)

/-- Python `l[-n:]`. -/
def takeLast {α : Type} (n : Nat) (l : List α) : List α :=
  l.drop (l.length - n)

/-- A context-history message as read by the planner's helpers (`role`,
`content`, optional `task_type` and `session_id` fields). -/
structure CtxMsg where
  role : Option String := none
  content : String := ""
  task_type : Option String := none
  session_id : Option String := none

/-- Encoding of a context message back into a Python dict value, for the
places where the planner embeds the raw context into task parameters. -/
def CtxMsg.toPyVal (m : CtxMsg) : PyVal :=
  PyVal.dict
    ((match m.role with | some r => [("role", PyVal.str r)] | none => [])
      ++ [("content", PyVal.str m.content)]
      ++ (match m.task_type with
          | some t => [("task_type", PyVal.str t)] | none => [])
      ++ (match m.session_id with
          | some s => [("session_id", PyVal.str s)] | none => []))

/-- A task dict as built by `Planner.create_plan` (`planner.py`). -/
structure PlanTask where
  id : String
  name : String
  description : String
  tool_name : String
  parameters : List (String × PyVal)
  dependencies : List String
  task_type : String
  timestamp : String := ""
  session_id : String := ""

/-- The `Task` dataclass (`planner.py` lines 17-25) built by `Planner.plan`. -/
structure PTask where
  id : String
  name : String
  description : String
  tool_name : String
  parameters : List (String × PyVal)
  dependencies : List String

/-- A knowledge-base search result `(text, similarity, metadata)` as
returned by the external vector index (`search_similar`); the raw results
are an input to the planner model. -/
structure KBResult where
  text : String
  similarity : ℚ
  metadata : List (String × PyVal)

def KBResult.toPyVal (r : KBResult) : PyVal :=
  PyVal.list [PyVal.str r.text, PyVal.num r.similarity, PyVal.dict r.metadata]

namespace Planner

/-- `self.task_type_keywords` (`planner.py` lines 43-52), in dict insertion
order. -/
def task_type_keywords : List (String × List String) :=
  [("data_collection", ["收集", "采集", "获取", "下载", "抓取", "搜集"]),
   ("data_analysis", ["分析", "趋势", "走势", "对比", "统计", "预测", "评估"]),
   ("market_research", ["市场", "行业", "板块", "产业链", "竞争格局", "市场份额"]),
   ("stock_analysis", ["股票", "股价", "行情", "A股", "港股", "美股", "指数"]),
   ("news_analysis", ["新闻", "资讯", "热点", "报道", "事件", "动态"]),
   ("risk_assessment", ["风险", "评估", "预警", "隐患", "不确定", "波动性"]),
   ("investment_advice", ["建议", "推荐", "投资策略", "配置", "买入", "卖出"]),
   ("general_query", ["查询", "什么", "如何", "是否", "为什么", "解释", "含义"])]

/-- Keyword-match score of one task type (+1 per keyword occurring in the
lowered query). -/
def keywordScore (query_lower : String) (keywords : List String) : ℚ :=
  (keywords.filter (fun kw => strContains query_lower kw)).length

def getScore (scores : List (String × ℚ)) (ty : String) : ℚ :=
  (lookupA scores ty).getD 0

def bumpScore (scores : List (String × ℚ)) (ty : String) (amt : ℚ) :
    List (String × ℚ) :=
  scores.map (fun p => if p.1 == ty then (p.1, p.2 + amt) else p)

/-- Python `max(scores, key=scores.get)`: the first key attaining the
maximal score, in dict insertion order. -/
def argmaxFirst (scores : List (String × ℚ)) : String :=
  match scores with
  | [] => ""
  | p :: ps => (ps.foldl (fun best q => if best.2 < q.2 then q else best) p).1

/-- `Planner._analyze_task_type` (`planner.py` lines 310-343). -/
def analyze_task_type (query : String) (context : List CtxMsg) : String :=
  let query_lower := strLower query
  let scores := task_type_keywords.map
    (fun p => (p.1, keywordScore query_lower p.2))
  if strContains query_lower "市场" ∧ strContains query_lower "热点"
      ∧ (0 < getScore scores "market_research"
          ∨ 0 < getScore scores "news_analysis") then
    if getScore scores "news_analysis" ≤ getScore scores "market_research"
    then "market_research" else "news_analysis"
  else
    let scores2 := ((takeLast 3 context).reverse).foldl
      (fun sc msg =>
        match msg.task_type with
        | some ty => bumpScore sc ty (1 / 2)
        | none => sc) scores
    argmaxFirst scores2

def clarification_words : List String :=
  ["是什么", "什么是", "解释", "如何理解", "具体", "详细"]

def summary_words : List String :=
  ["总结", "概括", "汇总", "总结一下", "概括一下"]

/-- `Planner._detect_conversation_stage` (`planner.py` lines 430-466). -/
def detect_conversation_stage (context : List CtxMsg) : String :=
  if context.isEmpty then "initial"
  else
    match context.reverse.find? (fun msg => msg.role == some "user") with
    | none => "initial"
    | some msg =>
      let last_user_msg := strLower msg.content
      if last_user_msg.isEmpty then "initial"
      else if clarification_words.any (fun w => strContains last_user_msg w)
      then "clarification"
      else if summary_words.any (fun w => strContains last_user_msg w)
      then "summary"
      else "follow_up"

/-- `self.tool_mapping` inside `_get_available_tools`
(`planner.py` lines 383-404). -/
def tool_mapping : List (String × List String) :=
  [("data_collection", ["web_scraping_tool", "database_tool"]),
   ("data_analysis", ["data_analysis", "visualization_tool"]),
   ("market_research", ["web_scraping_tool", "data_analysis", "database_tool"]),
   ("stock_analysis", ["stock_data_tool", "data_analysis"]),
   ("news_analysis", ["web_scraping_tool", "news_analysis"]),
   ("risk_assessment", ["risk_assessment", "data_analysis"]),
   ("investment_advice", ["investment_advisor", "risk_assessment"]),
   ("general_query", ["general_query", "web_search"])]

def get_available_tools (task_type : String) : List String :=
  (lookupA tool_mapping task_type).getD ["general_query"]

/-- The adjustment-suggestion reordering of `create_plan`
(`planner.py` lines 88-100): a suggestion mentioning a tool moves the first
such tool to the front of the recommended list. -/
def applyAdjustments (recommended : List String) (suggestions : List String) :
    List String :=
  suggestions.foldl
    (fun tools sug =>
      if strContains sug "工具" then
        match tools.find? (fun tool => strContains sug tool) with
        | some tool => tool :: tools.erase tool
        | none => tools
      else tools)
    recommended

/-- `Planner._retrieve_from_knowledge_base` (`planner.py` lines 345-381):
filter the raw vector-index results by the similarity floor 0.1. -/
def retrieve_from_knowledge_base (raw : List KBResult) : List KBResult :=
  raw.filter (fun r => (0.1 : ℚ) < r.similarity)

/-- Python's `string.punctuation`. -/
def ascii_punctuation : List Char :=
  ['!', '"', '#', '$', '%', '&', '\x27', '(', ')', '*', '+', ',', '-', '.',
   '/', ':', ';', '<', '=', '>', '?', '@', '[', '\\', ']', '^', '_', '\x60',
   '\x7b', '|', '\x7d', '~']

/-- `Planner._extract_query` (`planner.py` lines 406-428): lowercase, strip
the listed prefixes in order, delete ASCII punctuation, strip. -/
def extract_query (text : String) : String :=
  let t0 := (strLower text).trim
  let t1 := ["请", "帮我", "帮", "是否可以", "是否能", "能否", "我想", "我要"].foldl
    (fun t p => if p.isPrefixOf t then (t.drop p.length).trim else t) t0
  (String.mk (t1.data.filter (fun c => !(ascii_punctuation.contains c)))).trim

/-- `Planner._summarize_context` (`planner.py` lines 554-574). -/
def summarize_context (context : List CtxMsg) : String :=
  if context.isEmpty then ""
  else
    String.intercalate "\n"
      (((takeLast 6 context).filter
          (fun msg => msg.role == some "user" || msg.role == some "assistant")).map
        (fun msg => msg.role.getD "unknown" ++ ": " ++ msg.content))

/-- `Planner._generate_session_id` (`planner.py` lines 576-593): the first
`session_id` found in the context, else a fresh id built from the wall clock
and Python's `hash` of the context — both environment inputs, passed in. -/
def generate_session_id (context : List CtxMsg) (nowStr : String)
    (ctxHash : Nat) : String :=
  match context.find? (fun msg => msg.session_id.isSome) with
  | some msg => msg.session_id.getD ""
  | none => "session_" ++ nowStr ++ "_" ++ toString (ctxHash % 10000)

/-- Builder for the task dicts `create_plan` appends. -/
def planTask (c : Nat) (name description tool_name : String)
    (parameters : List (String × PyVal)) (dependencies : List String)
    (task_type : String) : PlanTask :=
  { id := "task_" ++ toString c, name := name, description := description
    tool_name := tool_name, parameters := parameters
    dependencies := dependencies, task_type := task_type }

/-- `Planner.create_plan` (`planner.py` lines 54-308). The external inputs
— the raw vector-index results, the wall clock's ISO timestamp and Python's
`hash` of the context — are parameters; `task_counter` is the planner's
mutable counter, threaded through and returned. -/
def create_plan (user_query : String) (context : List CtxMsg)
    (adjustment_suggestions : List String) (raw_kb : List KBResult)
    (nowIso : String) (ctxHash : Nat) (task_counter : Nat) :
    List PlanTask × Nat :=
  let task_type := analyze_task_type user_query context
  let conversation_stage := detect_conversation_stage context
  let recommended_tools :=
    applyAdjustments (get_available_tools task_type) adjustment_suggestions
  let knowledge_base_results := retrieve_from_knowledge_base raw_kb
  let stage1 : List PlanTask × Nat :=
    if conversation_stage = "initial" then
      if ¬ knowledge_base_results.isEmpty then
        let t1 := planTask task_counter "知识库检索" "从本地知识库检索相关信息"
          "knowledge_base_tool"
          [("query", PyVal.str user_query),
           ("search_results",
             PyVal.list ((knowledge_base_results.take 2).map KBResult.toPyVal))]
          [] task_type
        if (task_type = "data_analysis" ∨ task_type = "stock_analysis"
              ∨ task_type = "market_research")
            ∧ "data_analysis" ∈ recommended_tools then
          let t2 := planTask (task_counter + 1) "深度数据分析"
            ("对" ++ user_query ++ "进行深度数据分析") "data_analysis"
            [("query", PyVal.str user_query),
             ("previous_task_id", PyVal.str t1.id)]
            [t1.id] task_type
          ([t1, t2], task_counter + 2)
        else ([t1], task_counter + 1)
      else
        if (task_type = "data_collection" ∨ task_type = "market_research")
            ∧ "web_scraping_tool" ∈ recommended_tools then
          ([planTask task_counter "网络数据采集"
              ("从网络采集关于" ++ user_query ++ "的数据") "web_scraping_tool"
              [("query", PyVal.str user_query),
               ("search_type", PyVal.str task_type)]
              [] task_type], task_counter + 1)
        else if "database_tool" ∈ recommended_tools then
          ([planTask task_counter "数据库查询"
              ("从本地数据库查询关于" ++ user_query ++ "的信息") "database_tool"
              [("query_params",
                 PyVal.dict [("table", PyVal.str "RecentHotTopics"),
                             ("conditions", PyVal.dict [])]),
               ("search_keyword", PyVal.str user_query)]
              [] task_type], task_counter + 1)
        else
          ([planTask task_counter "通用查询处理"
              ("处理关于" ++ user_query ++ "的查询") "general_query"
              [("query", PyVal.str user_query),
               ("context_summary", PyVal.str (summarize_context context))]
              [] task_type], task_counter + 1)
    else if conversation_stage = "follow_up" then
      if ¬ knowledge_base_results.isEmpty then
        ([planTask task_counter "知识库跟进查询"
            "基于之前的对话从知识库检索更多信息" "knowledge_base_tool"
            [("query", PyVal.str user_query),
             ("search_results",
               PyVal.list (knowledge_base_results.map KBResult.toPyVal)),
             ("context_summary", PyVal.str (summarize_context context))]
            [] task_type], task_counter + 1)
      else
        ([planTask task_counter "跟进问题处理" "处理用户的跟进问题"
            "general_query"
            [("query", PyVal.str user_query),
             ("context_summary", PyVal.str (summarize_context context)),
             ("follow_up", PyVal.boolean true)]
            [] task_type], task_counter + 1)
    else if conversation_stage = "clarification" then
      ([planTask task_counter "概念解释" "解释用户询问的概念或术语"
          "general_query"
          [("query", PyVal.str user_query),
           ("clarification", PyVal.boolean true)]
          [] "general_query"], task_counter + 1)
    else if conversation_stage = "summary" then
      ([planTask task_counter "对话总结" "总结之前的对话内容和分析结果"
          "summary_tool"
          [("query", PyVal.str user_query),
           ("full_context", PyVal.list (context.map CtxMsg.toPyVal)),
           ("time_range", PyVal.str "recent")]
          [] "general_query"], task_counter + 1)
    else ([], task_counter)
  let stage2 : List PlanTask × Nat :=
    if task_type = "risk_assessment" ∧ ¬ stage1.1.isEmpty
        ∧ "risk_assessment" ∈ recommended_tools then
      (stage1.1 ++ [planTask stage1.2 "风险评估分析" "对投资风险进行专业评估"
          "risk_assessment"
          [("query", PyVal.str user_query),
           ("previous_task_id",
             match stage1.1.getLast? with
             | some t => PyVal.str t.id
             | none => PyVal.pyNone)]
          (match stage1.1.getLast? with
           | some t => [t.id]
           | none => [])
          task_type], stage1.2 + 1)
    else stage1
  let plan3 : List PlanTask :=
    if stage2.1.isEmpty then
      stage2.1 ++ [planTask stage2.2 "通用查询" "处理通用查询请求"
        "general_query"
        [("query", PyVal.str user_query),
         ("context", PyVal.list (context.map CtxMsg.toPyVal))]
        [] task_type]
    else stage2.1
  let c3 : Nat := if stage2.1.isEmpty then stage2.2 + 1 else stage2.2
  (plan3.map (fun t =>
      { t with timestamp := nowIso
               session_id := generate_session_id context nowIso ctxHash }),
   c3)

/-- Builder for the `Task` dataclass values `Planner.plan` appends. -/
def ptask (c : Nat) (name description tool_name : String)
    (parameters : List (String × PyVal)) (dependencies : List String) : PTask :=
  { id := "task_" ++ toString c, name := name, description := description
    tool_name := tool_name, parameters := parameters
    dependencies := dependencies }

/-- `Planner.plan` (`planner.py` lines 468-552): the keyword-flow planner
over the `Task` dataclass; the generic-query fallback fires only when
`general_query` is among `available_tools`. -/
def plan (user_request : String) (available_tools : List String)
    (task_counter : Nat) : List PTask × Nat :=
  let lower := strLower user_request
  let flow : List PTask × Nat :=
    if ["分析", "趋势", "股票", "市场"].any (fun kw => strContains lower kw) then
      let s1 : List PTask × Nat :=
        if "web_scraping_tool" ∈ available_tools then
          ([ptask task_counter "数据采集" "从财经网站采集相关数据"
              "web_scraping_tool"
              [("query", PyVal.str (extract_query user_request))] []],
           task_counter + 1)
        else ([], task_counter)
      if "data_analysis" ∈ available_tools then
        (s1.1 ++ [ptask s1.2 "数据分析" "分析采集到的数据" "data_analysis"
            [("previous_task_id",
              match s1.1.getLast? with
              | some t => PyVal.str t.id
              | none => PyVal.pyNone)]
            (match s1.1.getLast? with
             | some t => [t.id]
             | none => [])],
         s1.2 + 1)
      else s1
    else if ["新闻", "资讯", "热点"].any (fun kw => strContains lower kw) then
      if "news_analysis" ∈ available_tools then
        ([ptask task_counter "新闻分析" "分析财经新闻" "news_analysis"
            [("query", PyVal.str (extract_query user_request))] []],
         task_counter + 1)
      else ([], task_counter)
    else if ["风险", "评估", "风险评估"].any (fun kw => strContains lower kw) then
      if "risk_assessment" ∈ available_tools then
        ([ptask task_counter "风险评估" "评估投资风险" "risk_assessment"
            [("query", PyVal.str (extract_query user_request))] []],
         task_counter + 1)
      else ([], task_counter)
    else ([], task_counter)
  let tasks2 : List PTask :=
    if flow.1.isEmpty ∧ "general_query" ∈ available_tools then
      flow.1 ++ [ptask flow.2 "通用查询" "处理通用查询请求" "general_query"
        [("query", PyVal.str user_request)] []]
    else flow.1
  let c2 : Nat :=
    if flow.1.isEmpty ∧ "general_query" ∈ available_tools then flow.2 + 1
    else flow.2
  (tasks2, c2)

end Planner

/-- `PrivateAgent.process_request`'s catch-all error return
(`private_agent.py` lines 304-310). -/
def processRequestError (msg session_id : String) : PyVal :=
  PyVal.dict [("status", PyVal.str "error"), ("error_message", PyVal.str msg),
    ("session_id", PyVal.str session_id)]

namespace PrivateAgent

/-- The knowledge-base fallback sentinel compared at `private_agent.py`
line 357. -/
def kbFallbackSentinel : String :=
  "科技股推荐信息已处理完成。由于本地知识库检索未能获取到有效数据，请尝试更具体的查询，如\x27推荐2023年增长最快的5支科技股\x27或指定特定领域的科技股。"

/-- The `isinstance(content, dict)` formatting branch of `chat`
(`private_agent.py` lines 377-391), for truthy `content`. -/
def formatContent (content : PyVal) : List String :=
  match content with
  | PyVal.dict fs =>
    let title := pyGetD (PyVal.dict fs) "title" (PyVal.str "")
    let summary_text := pyOr (pyGetD (PyVal.dict fs) "summary" (PyVal.str ""))
      (pyGetD (PyVal.dict fs) "content" (PyVal.str ""))
    if pyTruthy title ∨ pyTruthy summary_text then
      [(if pyTruthy title then "**" ++ pyStr title ++ "**<br>" else "")
        ++ pyStr summary_text]
    else []
  | c => [pyStr c]

/-- One `parsed_data` item's text (`private_agent.py` lines 395-402):
`item.get('content') or item.get('summary') or str(item)` for dict items,
`str(item)` otherwise. -/
def parsedItemText (item : PyVal) : String :=
  match item with
  | PyVal.dict fs =>
    let v := pyOr (pyGet (PyVal.dict fs) "content")
      (pyGet (PyVal.dict fs) "summary")
    if pyTruthy v then pyStr v else pyStr (PyVal.dict fs)
  | other => pyStr other

/-- One task result's contribution to the fallback reply
(`private_agent.py` lines 368-431). -/
def taskResponseParts (task_result : PyVal) : List String :=
  let content := pyOr (pyGet task_result "summary")
    (pyOr (pyGet task_result "analysis")
      (pyOr (pyGet task_result "conclusion")
        (pyOr (pyGet task_result "market_summary")
          (pyGet task_result "investment_advice"))))
  if pyTruthy content then formatContent content
  else if pyHasKey task_result "parsed_data" then
    match pyGet task_result "parsed_data" with
    | PyVal.list items => [String.intercalate "<br>" (items.map parsedItemText)]
    | parsed => [pyStr parsed]
  else if pyHasKey task_result "data" then
    match pyGet task_result "data" with
    | PyVal.str s => [s]
    | PyVal.list data_val =>
      if data_val.isEmpty then
        ["从 " ++ pyStr (pyGetD task_result "source" (PyVal.str "数据源"))
          ++ " 未找到关于 \x27"
          ++ pyStr (pyGetD task_result "query" (PyVal.str "未知查询"))
          ++ "\x27 的相关数据。"]
      else ["找到 " ++ toString data_val.length ++ " 条相关数据。"]
    | other => [pyStr other]
  else
    if pyHasKey task_result "title" ∧ pyHasKey task_result "summary"
        ∧ ¬ pyTruthy (pyGet task_result "title")
        ∧ ¬ pyTruthy (pyGet task_result "summary") then []
    else [pyStr task_result]

/-- The success-branch reply assembly over `result["tasks"]`
(`private_agent.py` lines 362-434). -/
def successResponse (tasks : List PyVal) : String :=
  let parts := tasks.foldr
    (fun task acc =>
      if pyTruthy (pyGet task "result") then
        taskResponseParts (pyGet task "result") ++ acc
      else acc) []
  if parts.isEmpty then "分析完成，未获得具体结果。"
  else String.intercalate "<br><br>" parts

/-- `PrivateAgent.chat` (`private_agent.py` lines 312-444), modeled from the
inner `process_request` result to the returned envelope (the
conversation-history bookkeeping through Memory does not influence the
envelope). The returned dict's `status` field is the literal `success`. -/
def chatReturn (result : PyVal) (session_id : String) (now : ℚ) : PyVal :=
  let ai_response :=
    if pyTruthy (pyGet result "response")
        ∧ pyEqStr (pyGet result "response") kbFallbackSentinel = false then
      pyStr (pyGet result "response")
    else if pyEqStr (pyGet result "status") "success" then
      match pyGet result "tasks" with
      | PyVal.list tasks => successResponse tasks
      | _ => successResponse []
    else
      "处理请求时出现错误: "
        ++ pyStr (pyGetD result "error_message" (PyVal.str "未知错误"))
  PyVal.dict [("status", PyVal.str "success"),
    ("session_id", PyVal.str session_id),
    ("response", PyVal.str ai_response),
    ("detailed_result", result),
    ("timestamp", PyVal.num now)]

end PrivateAgent

/-! ### Lemmas -/

theorem lookupA_eq_none_iff {α : Type} (l : List (String × α)) (k : String) :
    lookupA l k = none ↔ k ∉ l.map Prod.fst := by
  constructor
  · intro h hk
    rcases List.mem_map.1 hk with ⟨p, hp, hpk⟩
    have hfind : l.find? (fun q => q.1 == k) ≠ none := by
      intro hnone
      have := List.find?_eq_none.1 hnone p hp
      simp [hpk] at this
    rcases Option.ne_none_iff_exists.1 hfind with ⟨q, hq⟩
    simp [lookupA, hq.symm] at h
  · intro h
    have hfind : l.find? (fun q => q.1 == k) = none := by
      apply List.find?_eq_none.2
      intro p hp
      simp only [beq_iff_eq]
      intro hpk
      exact h (List.mem_map.2 ⟨p, hp, hpk⟩)
    simp [lookupA, hfind]

theorem lookupA_isSome_iff {α : Type} (l : List (String × α)) (k : String) :
    (lookupA l k).isSome = true ↔ k ∈ l.map Prod.fst := by
  rw [← not_iff_not, Option.not_isSome_iff_eq_none]
  exact lookupA_eq_none_iff l k

theorem lookupA_assocSet_self {α : Type} (l : List (String × α)) (k : String)
    (v : α) : lookupA (assocSet l k v) k = some v := by
  simp [lookupA, assocSet, List.find?]

theorem lookupA_assocDelete_self {α : Type} (l : List (String × α))
    (k : String) : lookupA (assocDelete l k) k = none := by
  rw [lookupA_eq_none_iff]
  intro hk
  rcases List.mem_map.1 hk with ⟨p, hp, hpk⟩
  rcases List.mem_filter.1 hp with ⟨_, hne⟩
  simp [hpk] at hne

namespace Executor

theorem length_insertByTimestamp (t : Task) (l : List Task) :
    (insertByTimestamp t l).length = l.length + 1 := by
  induction l with
  | nil => rfl
  | cons u us ih =>
    by_cases h : u.timestamp ≤ t.timestamp <;>
      simp [insertByTimestamp, h, ih]

theorem length_sortTasks (plan : List Task) :
    (sortTasks plan).length = plan.length := by
  suffices h : ∀ acc : List Task,
      (plan.foldl (fun s t => insertByTimestamp t s) acc).length
        = plan.length + acc.length by
    simpa using h []
  induction plan with
  | nil => intro acc; simp
  | cons t rest ih =>
    intro acc
    simp only [List.foldl_cons, ih, length_insertByTimestamp, List.length_cons]
    omega

theorem length_executeLoop (tools : List (String × Tool)) (l : List Task)
    (acc : List (String × TaskResult)) :
    (executeLoop tools l acc).length = l.length := by
  induction l generalizing acc with
  | nil => rfl
  | cons t rest ih => simp [executeLoop, ih]

theorem length_execute_plan (tools : List (String × Tool)) (plan : List Task) :
    (execute_plan tools plan).length = plan.length := by
  rw [execute_plan, length_executeLoop, length_sortTasks]

theorem executeLoop_append (tools : List (String × Tool)) (l₁ l₂ : List Task)
    (acc : List (String × TaskResult)) :
    executeLoop tools (l₁ ++ l₂) acc
      = executeLoop tools l₁ acc ++ executeLoop tools l₂ (runAcc tools acc l₁) := by
  induction l₁ generalizing acc with
  | nil => rfl
  | cons t rest ih => simp [executeLoop, runAcc, ih]

theorem runAcc_map_fst (tools : List (String × Tool)) (l : List Task)
    (acc : List (String × TaskResult)) :
    (runAcc tools acc l).map Prod.fst
      = (l.map Task.id).reverse ++ acc.map Prod.fst := by
  induction l generalizing acc with
  | nil => simp [runAcc]
  | cons t rest ih => simp [runAcc, ih]

theorem lookupA_runAcc_none_iff (tools : List (String × Tool)) (pre : List Task)
    (d : String) :
    lookupA (runAcc tools [] pre) d = none ↔ d ∉ pre.map Task.id := by
  rw [lookupA_eq_none_iff, runAcc_map_fst]
  simp

/-- The element of `execute_plan`'s output at a given position of the sorted
task order is the loop body applied to the running map built from the earlier
sorted tasks. -/
theorem execute_plan_at_split (tools : List (String × Tool)) (plan : List Task)
    (pre : List Task) (t : Task) (post : List Task)
    (hs : sortTasks plan = pre ++ t :: post) :
    (execute_plan tools plan)[pre.length]?
      = some (executeStep tools (runAcc tools [] pre) t) := by
  rw [execute_plan, hs, executeLoop_append]
  rw [List.getElem?_append_right (by rw [length_executeLoop])]
  rw [length_executeLoop]
  simp [executeLoop]

/-- The executor's missing-dependency test against the running map is exactly
membership among the ids of the earlier tasks in the sorted order. -/
theorem missing_filter_eq (tools : List (String × Tool)) (pre : List Task)
    (t : Task) :
    t.dependencies.filter (fun d => (lookupA (runAcc tools [] pre) d).isNone)
      = t.dependencies.filter (fun d => !(decide (d ∈ pre.map Task.id))) := by
  apply List.filter_congr
  intro d _
  by_cases hd : d ∈ pre.map Task.id
  · have hne : lookupA (runAcc tools [] pre) d ≠ none := by
      rw [Ne, lookupA_runAcc_none_iff]
      simp [hd]
    rcases h : lookupA (runAcc tools [] pre) d with _ | v
    · exact absurd h hne
    · simp [hd]
  · have := (lookupA_runAcc_none_iff tools pre d).2 hd
    simp [this, hd]

/-- When every dependency of `t` is an id of an earlier sorted task, the
executor's missing-dependency list is empty. -/
theorem missing_filter_nil (tools : List (String × Tool)) (pre : List Task)
    (t : Task) (hdeps : ∀ d ∈ t.dependencies, d ∈ pre.map Task.id) :
    t.dependencies.filter (fun d => (lookupA (runAcc tools [] pre) d).isNone)
      = [] := by
  rw [missing_filter_eq]
  apply List.filter_eq_nil_iff.2
  intro d hd
  simp [hdeps d hd]

/-- Loop-body case: some dependency is missing from the running map. -/
theorem executeStep_depUnmet (tools : List (String × Tool))
    (acc : List (String × TaskResult)) (t : Task)
    (h : t.dependencies.filter (fun d => (lookupA acc d).isNone) ≠ []) :
    executeStep tools acc t
      = depUnmetResult t
          (t.dependencies.filter (fun d => (lookupA acc d).isNone)) := by
  unfold executeStep
  rcases hfilter : t.dependencies.filter (fun d => (lookupA acc d).isNone)
    with _ | ⟨a, l⟩
  · exact absurd hfilter h
  · simp [hfilter]

/-- Loop-body case: dependencies met and the tool raises. -/
theorem executeStep_toolRaises (tools : List (String × Tool))
    (acc : List (String × TaskResult)) (t : Task) (f : Tool) (msg : String)
    (hmet : t.dependencies.filter (fun d => (lookupA acc d).isNone) = [])
    (hf : lookupA tools t.tool_name = some f)
    (hbeh : ∀ ps ds, f ps ds = ToolBeh.raises msg) :
    executeStep tools acc t = toolExecErrorResult t msg := by
  unfold executeStep
  simp [hmet, hf, hbeh]

/-- Loop-body case: dependencies met and the tool returns a dict. -/
theorem executeStep_toolDict (tools : List (String × Tool))
    (acc : List (String × TaskResult)) (t : Task) (f : Tool)
    (st : Option String)
    (hmet : t.dependencies.filter (fun d => (lookupA acc d).isNone) = [])
    (hf : lookupA tools t.tool_name = some f)
    (hbeh : ∀ ps ds, f ps ds = ToolBeh.retDict st) :
    executeStep tools acc t
      = { status := st, task_id := t.id, task_name := t.name
          tool_name := t.tool_name } := by
  unfold executeStep
  simp [hmet, hf, hbeh]

end Executor

theorem zinsertSorted_append (e : ZMember) (z : List ZMember)
    (h : ∀ x ∈ z, x.score < e.score) : zinsertSorted e z = z ++ [e] := by
  induction z with
  | nil => rfl
  | cons x xs ih =>
    have hx : x.score < e.score := h x (by simp)
    simp only [zinsertSorted, if_pos (Or.inl hx)]
    rw [ih (fun y hy => h y (by simp [hy]))]
    simp

theorem zfilter_eq_self (z : List ZMember) (m : String)
    (h : m ∉ z.map ZMember.member) :
    z.filter (fun x => x.member != m) = z := by
  apply List.filter_eq_self.2
  intro x hx
  simp only [bne_iff_ne, ne_eq]
  intro hxm
  exact h (List.mem_map.2 ⟨x, hx, hxm⟩)

theorem zadd_fresh_append (z : List ZMember) (m : String) (s : ℚ)
    (hfresh : m ∉ z.map ZMember.member) (hnew : ∀ x ∈ z, x.score < s) :
    zadd z m s = z ++ [⟨m, s⟩] := by
  rw [zadd, zfilter_eq_self z m hfresh, zinsertSorted_append _ _ hnew]

theorem assocSet_fresh {α : Type} (l : List (String × α)) (k : String) (v : α)
    (h : k ∉ l.map Prod.fst) : assocSet l k v = (k, v) :: l := by
  rw [assocSet]
  congr 1
  apply List.filter_eq_self.2
  intro p hp
  simp only [bne_iff_ne, ne_eq]
  intro hpk
  exact h (List.mem_map.2 ⟨p, hp, hpk⟩)

theorem mapFst_filter_ne {α : Type} (l : List (String × α)) (m : String) :
    (l.filter (fun p => p.1 != m)).map Prod.fst
      = (l.map Prod.fst).filter (fun a => a != m) := by
  induction l with
  | nil => rfl
  | cons p ps ih => by_cases h : p.1 = m <;> simp [h, ih]

theorem zrem_singleton (z : List ZMember) (m : String) :
    zrem z [m] = z.filter (fun x => x.member != m) := by
  unfold zrem
  apply List.filter_congr
  intro x _
  by_cases hxm : x.member = m <;> simp [List.contains, hxm]

theorem filterFst_singleton {α : Type} (l : List (String × α)) (m : String) :
    l.filter (fun p => !([m].contains p.1)) = l.filter (fun p => p.1 != m) := by
  apply List.filter_congr
  intro p _
  by_cases hpm : p.1 = m <;> simp [List.contains, hpm]

theorem fallback_map_ne_nil {α β : Type} (l : List α) (d : α) (f : α → β) :
    ((if l.isEmpty then l ++ [d] else l).map f) ≠ [] := by
  by_cases h : l.isEmpty
  · simp [h]
  · rcases l with _ | ⟨a, as⟩
    · simp at h
    · simp

theorem fallback_if_ne_nil {α : Type} (l : List α) (d : α) (P : Prop)
    [Decidable P] (hp : P) :
    (if l.isEmpty ∧ P then l ++ [d] else l) ≠ [] := by
  by_cases h : l.isEmpty
  · rw [if_pos ⟨h, hp⟩]
    simp
  · rw [if_neg (fun hc => h hc.1)]
    intro hl
    rw [hl] at h
    exact h rfl

/-! ### Claim theorems -/

/-- C1, counterexample: a Memory store holds a result for task id `X`
(`get_task_result` returns it), yet `execute_plan` on a plan whose only task
depends on `X` still short-circuits that task into the `EXECUTION_ERROR`
dependency result — the executor consults no Memory fallback at all, only
the current batch's running map. -/
theorem execute_plan_ignores_memory_counterexample :
    (MemoryManager.get_task_result memWithX 0 "X").1 = some (PyVal.str "ok")
    ∧ Executor.execute_plan toolsAlwaysOk [taskNeedsX]
        = [Executor.depUnmetResult taskNeedsX ["X"]] := by
  constructor
  · have hl : lookupA memWithX ("task_result:" ++ "X")
        = some ⟨PyVal.str "ok", 0 + 86400⟩ :=
      lookupA_assocSet_self _ _ _
    simp only [MemoryManager.get_task_result, hl]
    rw [if_pos (by norm_num)]
  · rfl

/-- C1 (amended): dependencies are resolved against the current batch's
running result map only (no Memory fallback); a task any of whose
dependencies is missing from that map is never executed — it yields the
synthetic `EXECUTION_ERROR` result carrying exactly the list of its missing
dependency ids — and execution proceeds with the remaining tasks (one result
per task). -/
theorem execute_plan_dependency_short_circuit
    (tools : List (String × Tool)) (plan : List Task)
    (pre : List Task) (t : Task) (post : List Task)
    (hs : Executor.sortTasks plan = pre ++ t :: post)
    (hmiss : t.dependencies.filter (fun d => !(decide (d ∈ pre.map Task.id))) ≠ []) :
    (Executor.execute_plan tools plan)[pre.length]?
      = some (Executor.depUnmetResult t
          (t.dependencies.filter (fun d => !(decide (d ∈ pre.map Task.id)))))
    ∧ (Executor.execute_plan tools plan).length = plan.length := by
  refine ⟨?_, Executor.length_execute_plan tools plan⟩
  have hmiss2 : t.dependencies.filter
      (fun d => (lookupA (Executor.runAcc tools [] pre) d).isNone) ≠ [] := by
    rw [Executor.missing_filter_eq]
    exact hmiss
  rw [Executor.execute_plan_at_split tools plan pre t post hs,
    Executor.executeStep_depUnmet tools _ t hmiss2, Executor.missing_filter_eq]

/-- C1 witness: the dependency short-circuit theorem applied to the concrete
one-task plan depending on the absent id `X`. -/
theorem execute_plan_dependency_short_circuit_witness :
    (Executor.execute_plan toolsAlwaysOk [taskNeedsX])[0]?
      = some (Executor.depUnmetResult taskNeedsX
          (taskNeedsX.dependencies.filter
            (fun d => !(decide (d ∈ ([] : List Task).map Task.id)))))
    ∧ (Executor.execute_plan toolsAlwaysOk [taskNeedsX]).length = 1 :=
  execute_plan_dependency_short_circuit toolsAlwaysOk [taskNeedsX]
    [] taskNeedsX [] rfl (by decide)

/-- C2: a plan of N tasks yields exactly N TaskResults; a tool invocation
that raises is caught and wrapped into a `TOOL_EXECUTION_ERROR` result
(never propagating out of `execute_plan`); and a task whose dependencies are
all satisfied is unaffected by other tasks' failures — its result has
`status = success` whenever its tool returns a success dict. -/
theorem execute_plan_partial_failure_isolation
    (tools : List (String × Tool)) (plan : List Task) :
    (Executor.execute_plan tools plan).length = plan.length
    ∧ (∀ pre t post f msg, Executor.sortTasks plan = pre ++ t :: post →
        (∀ d ∈ t.dependencies, d ∈ pre.map Task.id) →
        lookupA tools t.tool_name = some f →
        (∀ ps ds, f ps ds = ToolBeh.raises msg) →
        (Executor.execute_plan tools plan)[pre.length]?
          = some (Executor.toolExecErrorResult t msg))
    ∧ (∀ pre t post f, Executor.sortTasks plan = pre ++ t :: post →
        (∀ d ∈ t.dependencies, d ∈ pre.map Task.id) →
        lookupA tools t.tool_name = some f →
        (∀ ps ds, f ps ds = ToolBeh.retDict (some "success")) →
        ((Executor.execute_plan tools plan)[pre.length]?).map TaskResult.status
          = some (some "success")) := by
  refine ⟨Executor.length_execute_plan tools plan, ?_, ?_⟩
  · intro pre t post f msg hs hdeps hf hbeh
    rw [Executor.execute_plan_at_split tools plan pre t post hs,
      Executor.executeStep_toolRaises tools _ t f msg
        (Executor.missing_filter_nil tools pre t hdeps) hf hbeh]
  · intro pre t post f hs hdeps hf hbeh
    rw [Executor.execute_plan_at_split tools plan pre t post hs,
      Executor.executeStep_toolDict tools _ t f (some "success")
        (Executor.missing_filter_nil tools pre t hdeps) hf hbeh]
    rfl

/-- C2 witness: instantiated on a concrete two-task plan whose first task's
tool raises and whose second (independent) task's tool succeeds. -/
theorem execute_plan_partial_failure_isolation_witness :
    (Executor.execute_plan
        [("boom", fun _ _ => ToolBeh.raises "oops"),
         ("general_query", fun _ _ => ToolBeh.retDict (some "success"))]
        [{ id := "task_a", name := "a", tool_name := "boom", params := []
           dependencies := [], timestamp := 0 },
         { id := "task_c", name := "c", tool_name := "general_query", params := []
           dependencies := [], timestamp := 1 }]).length = 2
    ∧ (Executor.execute_plan
        [("boom", fun _ _ => ToolBeh.raises "oops"),
         ("general_query", fun _ _ => ToolBeh.retDict (some "success"))]
        [{ id := "task_a", name := "a", tool_name := "boom", params := []
           dependencies := [], timestamp := 0 },
         { id := "task_c", name := "c", tool_name := "general_query", params := []
           dependencies := [], timestamp := 1 }])[0]?
        = some (Executor.toolExecErrorResult
            { id := "task_a", name := "a", tool_name := "boom", params := []
              dependencies := [], timestamp := 0 } "oops")
    ∧ ((Executor.execute_plan
        [("boom", fun _ _ => ToolBeh.raises "oops"),
         ("general_query", fun _ _ => ToolBeh.retDict (some "success"))]
        [{ id := "task_a", name := "a", tool_name := "boom", params := []
           dependencies := [], timestamp := 0 },
         { id := "task_c", name := "c", tool_name := "general_query", params := []
           dependencies := [], timestamp := 1 }])[1]?).map TaskResult.status
        = some (some "success") := by
  refine ⟨?_, ?_, ?_⟩
  · exact (execute_plan_partial_failure_isolation _ _).1
  · exact (execute_plan_partial_failure_isolation _ _).2.1
      [] _ [{ id := "task_c", name := "c", tool_name := "general_query"
              params := [], dependencies := [], timestamp := 1 }] _ "oops"
      rfl (by simp) rfl (fun _ _ => rfl)
  · exact (execute_plan_partial_failure_isolation _ _).2.2
      [{ id := "task_a", name := "a", tool_name := "boom", params := []
         dependencies := [], timestamp := 0 }] _ [] _
      rfl (by simp) rfl (fun _ _ => rfl)

/-- C3: the decide node's retry bound. `Reflector.decide_next_step` does
return FINISH("已达到最大重试次数") whenever `current_retry >= max_retries`;
but `LangGraphAgent._decide_node` invokes it with keyword arguments none of
which name a parameter of `decide_next_step`, so in the code as written the
call raises `TypeError` and the loop never produces that FINISH decision. -/
theorem decide_node_kwargs_mismatch :
    pyKeywordsBind decide_next_step_param_names decide_node_call_kwargs = false
    ∧ ∀ (pr : PlanReflection) (mr cr : Nat), mr ≤ cr →
        Reflector.decide_next_step pr mr cr
          = { action := "FINISH", reason := "已达到最大重试次数" } := by
  refine ⟨by decide, ?_⟩
  intro pr mr cr h
  simp [Reflector.decide_next_step, h]

/-- C3 witness: the kwargs mismatch, and the retry-budget FINISH at the
concrete point `max_retries = 3`, `current_retry = 3`. -/
theorem decide_node_kwargs_mismatch_witness :
    pyKeywordsBind decide_next_step_param_names decide_node_call_kwargs = false
    ∧ Reflector.decide_next_step ⟨1, 0⟩ 3 3
        = { action := "FINISH", reason := "已达到最大重试次数" } :=
  ⟨decide_node_kwargs_mismatch.1,
   decide_node_kwargs_mismatch.2 ⟨1, 0⟩ 3 3 (by decide)⟩

/-- C4: `decide_next_step` is a pure function with exactly the specified
case split: budget reached → FINISH(max retries); success rate 1.0 → FINISH;
success rate ≥ 0.8 → FINISH (good enough); otherwise RETRY carrying the
failed-task count. -/
theorem decide_next_step_pure_cases (pr : PlanReflection) (mr cr : Nat) :
    (cr ≥ mr → Reflector.decide_next_step pr mr cr
        = { action := "FINISH", reason := "已达到最大重试次数" })
    ∧ (cr < mr → pr.success_rate = 1 → Reflector.decide_next_step pr mr cr
        = { action := "FINISH", reason := "所有任务执行成功" })
    ∧ (cr < mr → pr.success_rate ≠ 1 → pr.success_rate ≥ (0.8 : ℚ) →
        Reflector.decide_next_step pr mr cr
          = { action := "FINISH", reason := "大部分任务成功，可以接受" })
    ∧ (cr < mr → pr.success_rate < (0.8 : ℚ) →
        Reflector.decide_next_step pr mr cr
          = { action := "RETRY", reason := "部分任务失败，建议重试"
              failed_tasks := some pr.failed_tasks }) := by
  refine ⟨?_, ?_, ?_, ?_⟩
  · intro h
    simp [Reflector.decide_next_step, h]
  · intro hlt h1
    simp [Reflector.decide_next_step, Nat.not_le.2 hlt, h1]
  · intro hlt h1 h8
    simp [Reflector.decide_next_step, Nat.not_le.2 hlt, h1, h8]
  · intro hlt h8
    have h1 : pr.success_rate ≠ 1 := by
      intro h
      rw [h] at h8
      norm_num at h8
    simp [Reflector.decide_next_step, Nat.not_le.2 hlt, h1, not_le.2 h8]

/-- C4 witness: the spec scenario — success rate 0.4, current retry 0,
budget 3 — decides RETRY with the failed-task count attached. -/
theorem decide_next_step_pure_cases_witness :
    Reflector.decide_next_step ⟨(0.4 : ℚ), 2⟩ 3 0
      = { action := "RETRY", reason := "部分任务失败，建议重试"
          failed_tasks := some 2 } :=
  (decide_next_step_pure_cases ⟨(0.4 : ℚ), 2⟩ 3 0).2.2.2
    (by norm_num) (by norm_num)

/-- C5, counterexample: there is no input at all — reachable or not — on
which the Reflector's decision is REPLAN. -/
theorem no_replan_counterexample :
    ¬ ∃ (pr : PlanReflection) (mr cr : Nat),
        (Reflector.decide_next_step pr mr cr).action = "REPLAN" := by
  rintro ⟨pr, mr, cr, h⟩
  rw [Reflector.decide_next_step] at h
  split_ifs at h <;> simp_all

/-- C5 (amended): the Reflector never signals REPLAN: for every reflection
and retry budget, `decide_next_step` returns FINISH or RETRY (the reflection
dict carries no per-tool failure tally, and no consecutive-failure rule is
implemented). -/
theorem decide_next_step_action_range (pr : PlanReflection) (mr cr : Nat) :
    (Reflector.decide_next_step pr mr cr).action = "FINISH"
    ∨ (Reflector.decide_next_step pr mr cr).action = "RETRY" := by
  rw [Reflector.decide_next_step]
  split_ifs <;> simp

/-- C6, counterexample: executing a one-task plan (the task succeeds and its
result is produced) leaves the Memory store untouched — `task_result:task_1`
is still a miss afterwards, because `execute_plan` never persists results. -/
theorem execute_plan_no_persistence_counterexample :
    (Executor.execute_plan_with_memory [] toolsAlwaysOk [taskSolo]).1.length = 1
    ∧ (MemoryManager.get_task_result
        (Executor.execute_plan_with_memory [] toolsAlwaysOk [taskSolo]).2
        0 "task_1").1 = none :=
  ⟨rfl, rfl⟩

/-- C6 (amended): no TaskResult is persisted to Memory by `execute_plan`:
the Executor holds no MemoryManager and never calls `save_task_result`, so
the store is unchanged across the call and every `task_result:{id}` read
afterwards sees exactly what it saw before. -/
theorem execute_plan_no_memory_persistence (mem : MemStore)
    (tools : List (String × Tool)) (plan : List Task) (now : ℚ)
    (task_id : String) :
    (Executor.execute_plan_with_memory mem tools plan).2 = mem
    ∧ (Executor.execute_plan_with_memory mem tools plan).1
        = Executor.execute_plan tools plan
    ∧ MemoryManager.get_task_result
        (Executor.execute_plan_with_memory mem tools plan).2 now task_id
        = MemoryManager.get_task_result mem now task_id :=
  ⟨rfl, rfl, rfl⟩

/-- Helper for C7: one `save_interaction` insert on a well-formed log with a
fresh key and newest timestamp keeps the log well-formed, trims the index to
the most recent at-most-10 members (dropping the oldest `count - 10`), and
every surviving index entry is either an old entry or the new one. -/
theorem save_interaction_trim_step (st : InteractionLog)
    (user_id query : String) (response : PyVal) (now : ℚ)
    (hWF : logWF st)
    (hfresh : interactionKey user_id (msOfTimestamp now)
        ∉ st.zset.map ZMember.member)
    (hnew : ∀ e ∈ st.zset, e.score < now) :
    logWF (MemoryManager.save_interaction st user_id query response now)
    ∧ (MemoryManager.save_interaction st user_id query response now).zset.map
          ZMember.member
        = (st.zset.map ZMember.member
            ++ [interactionKey user_id (msOfTimestamp now)]).drop
            (st.zset.length + 1 - 10)
    ∧ (∀ e2 ∈ (MemoryManager.save_interaction st user_id query response now).zset,
        e2 ∈ st.zset
          ∨ e2 = ZMember.mk (interactionKey user_id (msOfTimestamp now)) now) := by
  obtain ⟨hsort, hlen, hnodupz, hnodupk, hperm⟩ := hWF
  set key := interactionKey user_id (msOfTimestamp now) with hkeydef
  have hkeykv : key ∉ st.kv.map Prod.fst := fun hmem => hfresh (hperm.subset hmem)
  have hz1 : zadd st.zset key now = st.zset ++ [ZMember.mk key now] :=
    zadd_fresh_append _ _ _ hfresh hnew
  have hkv1 : assocSet st.kv key ⟨user_id, query, response, now⟩
      = (key, Interaction.mk user_id query response now) :: st.kv :=
    assocSet_fresh _ _ _ hkeykv
  have hsort1 : (st.zset ++ [ZMember.mk key now]).Pairwise
      (fun a b => a.score < b.score ∨ (a.score = b.score ∧ a.member < b.member)) := by
    rw [List.pairwise_append]
    refine ⟨hsort, List.pairwise_singleton _ _, ?_⟩
    intro a ha b hb
    have hb2 : b = ZMember.mk key now := by simpa using hb
    subst hb2
    exact Or.inl (hnew a ha)
  simp only [MemoryManager.save_interaction, ← hkeydef, hz1, hkv1,
    List.length_append, List.length_cons, List.length_nil, Nat.zero_add]
  by_cases hcase : 10 < st.zset.length + 1
  · -- eviction: the set already held 10 members
    have hn : st.zset.length = 10 := by omega
    obtain ⟨m0, zrest, hz⟩ : ∃ m0 zrest, st.zset = m0 :: zrest := by
      cases hzc : st.zset with
      | nil => rw [hzc] at hn; simp at hn
      | cons a l => exact ⟨a, l, rfl⟩
    have hn9 : zrest.length = 9 := by
      rw [hz] at hn; simp at hn; omega
    have hm0zrest : m0.member ∉ zrest.map ZMember.member := by
      rw [hz] at hnodupz
      simp only [List.map_cons] at hnodupz
      exact (List.nodup_cons.1 hnodupz).1
    have hkeym0 : key ≠ m0.member := by
      rw [hz] at hfresh
      simp only [List.map_cons, List.mem_cons] at hfresh
      intro h
      exact hfresh (Or.inl h)
    have hkeyzrest : key ∉ zrest.map ZMember.member := by
      rw [hz] at hfresh
      simp only [List.map_cons, List.mem_cons] at hfresh
      intro h
      exact hfresh (Or.inr h)
    have holdest : zrangeFirst (st.zset ++ [ZMember.mk key now])
        (st.zset.length + 1 - 10) = [m0.member] := by
      rw [hz]
      simp [zrangeFirst, hn9]
    have hzset2 : zrem (st.zset ++ [ZMember.mk key now]) [m0.member]
        = zrest ++ [ZMember.mk key now] := by
      rw [zrem_singleton, hz, List.cons_append, List.filter_cons]
      rw [if_neg (by simp)]
      apply zfilter_eq_self
      simp only [List.map_append, List.map_cons, List.map_nil, List.mem_append,
        List.mem_cons]
      rintro (h | h)
      · exact hm0zrest h
      · rcases h with h | h
        · exact hkeym0 h.symm
        · simp at h
    have hkv2 : ((key, Interaction.mk user_id query response now) :: st.kv).filter
        (fun p => !([m0.member].contains p.1))
        = (key, Interaction.mk user_id query response now)
            :: st.kv.filter (fun p => p.1 != m0.member) := by
      rw [filterFst_singleton, List.filter_cons]
      rw [if_pos (by simp [hkeym0])]
    rw [if_pos hcase, holdest, hzset2, hkv2]
    have hkeys2 : ((key, Interaction.mk user_id query response now)
          :: st.kv.filter (fun p => p.1 != m0.member)).map Prod.fst
        = key :: (st.kv.map Prod.fst).filter (fun a => a != m0.member) := by
      simp only [List.map_cons, mapFst_filter_ne]
    have hpermfilter : ((st.kv.map Prod.fst).filter (fun a => a != m0.member)).Perm
        (zrest.map ZMember.member) := by
      have h1 := hperm.filter (fun a => a != m0.member)
      rw [hz] at h1
      simp only [List.map_cons, List.filter_cons] at h1
      rw [if_neg (by simp)] at h1
      have h2 : (zrest.map ZMember.member).filter (fun a => a != m0.member)
          = zrest.map ZMember.member := by
        apply List.filter_eq_self.2
        intro a ha
        simp only [bne_iff_ne, ne_eq]
        intro h
        exact hm0zrest (h ▸ ha)
      rw [h2] at h1
      exact h1
    refine ⟨⟨?_, ?_, ?_, ?_, ?_⟩, ?_, ?_⟩
    · -- sortedness of the trimmed set
      have := hsort1
      rw [hz, List.cons_append] at this
      exact (List.pairwise_cons.1 this).2
    · simp [hn9]
    · -- member nodup
      have := hnodupz
      rw [hz] at this
      simp only [List.map_cons] at this
      have hzrestnodup := (List.nodup_cons.1 this).2
      simp only [List.map_append, List.map_cons, List.map_nil]
      rw [List.nodup_append]
      refine ⟨hzrestnodup, List.nodup_singleton _, ?_⟩
      intro a ha hb
      have haeq : a = key := by simpa using hb
      exact hkeyzrest (haeq ▸ ha)
    · -- kv keys nodup
      rw [hkeys2]
      rw [List.nodup_cons]
      refine ⟨?_, hnodupk.filter _⟩
      intro h
      exact hkeykv (List.mem_of_mem_filter h)
    · -- kv keys ↔ index members
      rw [hkeys2]
      simp only [List.map_append, List.map_cons, List.map_nil]
      refine ((hpermfilter.cons key).trans ?_)
      exact (List.perm_append_singleton _ _).symm
    · -- the surviving members are the most recent 10
      rw [hz]
      simp [hn9]
    · -- every surviving entry is old or new
      intro e2 he2
      rcases List.mem_append.1 he2 with h | h
      · left
        rw [hz]
        exact List.mem_cons_of_mem _ h
      · right
        simpa using h
  · -- no eviction: at most 9 members before the insert
    rw [if_neg hcase]
    refine ⟨⟨hsort1, ?_, ?_, ?_, ?_⟩, ?_, ?_⟩
    · simp only [List.length_append, List.length_cons, List.length_nil]
      omega
    · simp only [List.map_append, List.map_cons, List.map_nil]
      rw [List.nodup_append]
      refine ⟨hnodupz, List.nodup_singleton _, ?_⟩
      intro a ha hb
      have haeq : a = key := by simpa using hb
      exact hfresh (haeq ▸ ha)
    · simp only [List.map_cons]
      rw [List.nodup_cons]
      exact ⟨hkeykv, hnodupk⟩
    · simp only [List.map_cons, List.map_append, List.map_nil]
      refine ((hperm.cons key).trans ?_)
      exact (List.perm_append_singleton _ _).symm
    · rw [Nat.sub_eq_zero_of_le (by omega), List.drop_zero]
      simp
    · intro e2 he2
      rcases List.mem_append.1 he2 with h | h
      · exact Or.inl h
      · right
        simpa using h

theorem drop_append_drop {α : Type} (xs ys : List α) (a b : Nat)
    (ha : a ≤ xs.length) :
    (xs.drop a ++ ys).drop b = (xs ++ ys).drop (a + b) := by
  rw [← List.drop_append_of_le_length ha, List.drop_drop, Nat.add_comm]

/-- Helper for C7: folding `save_interaction` over strictly increasing
timestamps with pairwise-distinct generated keys, starting from a
well-formed log that is older and disjoint from them, keeps the log
well-formed and leaves exactly the most recent at-most-10 keys. -/
theorem insertInteractions_members (user_id : String) (times : List ℚ)
    (st : InteractionLog) (hWF : logWF st)
    (hscore : ∀ tq ∈ times, ∀ e ∈ st.zset, e.score < tq)
    (hsorted : times.Pairwise (· < ·))
    (hfresh : ∀ tq ∈ times,
      interactionKey user_id (msOfTimestamp tq) ∉ st.zset.map ZMember.member)
    (hnodupkeys :
      (times.map (fun tq => interactionKey user_id (msOfTimestamp tq))).Nodup) :
    logWF (insertInteractions st user_id times)
    ∧ (insertInteractions st user_id times).zset.map ZMember.member
        = (st.zset.map ZMember.member
            ++ times.map (fun tq => interactionKey user_id (msOfTimestamp tq))).drop
            (st.zset.length + times.length - 10) := by
  induction times generalizing st with
  | nil =>
    have hlen := hWF.2.1
    refine ⟨hWF, ?_⟩
    simp only [List.length_nil, Nat.add_zero, List.map_nil, List.append_nil]
    rw [Nat.sub_eq_zero_of_le hlen, List.drop_zero]
    simp [insertInteractions]
  | cons t0 ks ih =>
    obtain ⟨hWFa, hmema, hsuba⟩ := save_interaction_trim_step st user_id "q"
      (PyVal.str "r") t0 hWF (hfresh t0 (by simp)) (hscore t0 (by simp))
    set st2 := MemoryManager.save_interaction st user_id "q" (PyVal.str "r") t0
      with hst2
    have hfold : insertInteractions st user_id (t0 :: ks)
        = insertInteractions st2 user_id ks := rfl
    have hlen0 := hWF.2.1
    have hlen2 : st2.zset.length
        = st.zset.length + 1 - (st.zset.length + 1 - 10) := by
      have := congrArg List.length hmema
      simpa using this
    have hks : ∀ tq ∈ ks, t0 < tq := fun tq htq =>
      (List.pairwise_cons.1 hsorted).1 tq htq
    have hscore2 : ∀ tq ∈ ks, ∀ e ∈ st2.zset, e.score < tq := by
      intro tq htq e he
      rcases hsuba e he with h | h
      · exact hscore tq (by simp [htq]) e h
      · rw [h]
        exact hks tq htq
    have hkey0ne : ∀ tq ∈ ks,
        interactionKey user_id (msOfTimestamp tq)
          ≠ interactionKey user_id (msOfTimestamp t0) := by
      intro tq htq heq
      have hnotin : interactionKey user_id (msOfTimestamp t0)
          ∉ ks.map (fun tq => interactionKey user_id (msOfTimestamp tq)) := by
        have h := hnodupkeys
        simp only [List.map_cons, List.nodup_cons] at h
        exact h.1
      apply hnotin
      rw [← heq]
      exact List.mem_map_of_mem _ htq
    have hfresh2 : ∀ tq ∈ ks,
        interactionKey user_id (msOfTimestamp tq) ∉ st2.zset.map ZMember.member := by
      intro tq htq hmem
      rcases List.mem_map.1 hmem with ⟨e, he, hek⟩
      rcases hsuba e he with h | h
      · exact hfresh tq (by simp [htq]) (hek ▸ List.mem_map_of_mem _ h)
      · rw [h] at hek
        exact hkey0ne tq htq hek.symm
    have IH := ih st2 hWFa hscore2 (List.pairwise_cons.1 hsorted).2 hfresh2
      (List.nodup_cons.1 hnodupkeys).2
    refine ⟨hfold ▸ IH.1, ?_⟩
    rw [hfold, IH.2, hmema]
    rw [drop_append_drop _ _ _ _ (by simp [List.length_append]; omega)]
    rw [List.append_assoc]
    have harith : st.zset.length + 1 - 10
          + (st2.zset.length + ks.length - 10)
        = st.zset.length + (t0 :: ks).length - 10 := by
      rw [hlen2]
      simp only [List.length_cons]
      omega
    rw [harith]
    simp

/-- C7: after every `save_interaction` insert (well-formed log, fresh
generated key, newest timestamp), the user's interaction log holds exactly
the most recent at-most-10 entries ordered by timestamp: whenever the count
exceeds 10 the oldest `count - 10` entries are evicted from both the
ordering index and the value store together — no orphaned values, no
untracked index entries — and inserting 15 records for one user (times
1..15) leaves exactly the 10 most recent. -/
theorem save_interaction_bounded_log :
    (∀ (st : InteractionLog) (user_id query : String) (response : PyVal)
        (now : ℚ),
      logWF st →
      interactionKey user_id (msOfTimestamp now) ∉ st.zset.map ZMember.member →
      (∀ e ∈ st.zset, e.score < now) →
      logWF (MemoryManager.save_interaction st user_id query response now)
      ∧ (MemoryManager.save_interaction st user_id query response now).zset.map
            ZMember.member
          = (st.zset.map ZMember.member
              ++ [interactionKey user_id (msOfTimestamp now)]).drop
              (st.zset.length + 1 - 10))
    ∧ logWF (insertInteractions ⟨[], []⟩ "alice"
        [1, 2, 3, 4, 5, 6, 7, 8, 9, 10, 11, 12, 13, 14, 15])
    ∧ (insertInteractions ⟨[], []⟩ "alice"
          [1, 2, 3, 4, 5, 6, 7, 8, 9, 10, 11, 12, 13, 14, 15]).zset.map
          ZMember.member
        = (([1, 2, 3, 4, 5, 6, 7, 8, 9, 10, 11, 12, 13, 14, 15] : List ℚ).map
            (fun tq => interactionKey "alice" (msOfTimestamp tq))).drop 5 := by
  have hstep : ∀ (st : InteractionLog) (user_id query : String)
      (response : PyVal) (now : ℚ),
      logWF st →
      interactionKey user_id (msOfTimestamp now) ∉ st.zset.map ZMember.member →
      (∀ e ∈ st.zset, e.score < now) →
      logWF (MemoryManager.save_interaction st user_id query response now)
      ∧ (MemoryManager.save_interaction st user_id query response now).zset.map
            ZMember.member
          = (st.zset.map ZMember.member
              ++ [interactionKey user_id (msOfTimestamp now)]).drop
              (st.zset.length + 1 - 10) := by
    intro st user_id query response now hWF hfresh hnew
    obtain ⟨h1, h2, _⟩ := save_interaction_trim_step st user_id query response
      now hWF hfresh hnew
    exact ⟨h1, h2⟩
  have hemptyWF : logWF ⟨[], []⟩ :=
    ⟨List.Pairwise.nil, by simp, by simp, by simp, by simp⟩
  have h15 := insertInteractions_members "alice"
    [1, 2, 3, 4, 5, 6, 7, 8, 9, 10, 11, 12, 13, 14, 15] ⟨[], []⟩ hemptyWF
    (by intro tq htq e he; simp at he) (by decide)
    (by intro tq htq hmem; simp at hmem) (by decide)
  refine ⟨hstep, h15.1, ?_⟩
  have := h15.2
  simpa using this

/-- C7 witness: the per-insert trim statement applied to a concrete
one-entry log and a fresh newest record. -/
theorem save_interaction_bounded_log_witness :
    logWF (MemoryManager.save_interaction logEx1 "alice" "q2" (PyVal.str "r2") 2)
    ∧ (MemoryManager.save_interaction logEx1 "alice" "q2"
          (PyVal.str "r2") 2).zset.map ZMember.member
        = (logEx1.zset.map ZMember.member
            ++ [interactionKey "alice" (msOfTimestamp 2)]).drop
            (logEx1.zset.length + 1 - 10) :=
  save_interaction_bounded_log.1 logEx1 "alice" "q2" (PyVal.str "r2") 2
    ⟨List.pairwise_singleton _ _, by decide, by decide, by decide, by decide⟩
    (by decide) (by decide)

/-- C8: reading a stored task result after its 24-hour TTL has elapsed is a
miss (exactly as if the key had never been stored), and the same `get` call
lazily deletes the expired entry — the key is absent from the store
afterwards. -/
theorem get_task_result_lazy_expiry (s : MemStore) (now0 now : ℚ)
    (task_id : String) (v : PyVal) (h : now0 + 86400 ≤ now) :
    (MemoryManager.get_task_result
        (MemoryManager.save_task_result s now0 task_id v) now task_id).1 = none
    ∧ lookupA (MemoryManager.get_task_result
        (MemoryManager.save_task_result s now0 task_id v) now task_id).2
        ("task_result:" ++ task_id) = none := by
  have hl : lookupA (MemoryManager.save_task_result s now0 task_id v)
      ("task_result:" ++ task_id) = some ⟨v, now0 + 86400⟩ :=
    lookupA_assocSet_self _ _ _
  constructor
  · simp only [MemoryManager.get_task_result, hl]
    rw [if_neg (not_lt.2 h)]
  · simp only [MemoryManager.get_task_result, hl]
    rw [if_neg (not_lt.2 h)]
    exact lookupA_assocDelete_self _ _

/-- C8 witness: store at time 0, read at time 86400 (TTL elapsed): miss and
the key is gone. -/
theorem get_task_result_lazy_expiry_witness :
    (MemoryManager.get_task_result
        (MemoryManager.save_task_result [] 0 "t1" PyVal.pyNone) 86400 "t1").1
      = none
    ∧ lookupA (MemoryManager.get_task_result
        (MemoryManager.save_task_result [] 0 "t1" PyVal.pyNone) 86400 "t1").2
        ("task_result:" ++ "t1") = none :=
  get_task_result_lazy_expiry [] 0 86400 "t1" PyVal.pyNone (by norm_num)

/-- C9, counterexample: with no matching keyword flow and an
`available_tools` list not containing `general_query`, `Planner.plan`
returns the empty plan — the generic-query fallback is conditional on the
tool's availability. -/
theorem plan_empty_counterexample :
    (Planner.plan "hello" [] 0).1 = [] := rfl

/-- C9 (amended): `create_plan` never returns an empty plan — when no
branch produced a task, the general-query fallback task is appended
unconditionally; `Planner.plan`, however, appends its generic-query
fallback only when `general_query` is among `available_tools` (and is then
never empty), and returns an empty list when no keyword flow matches and
`general_query` is unavailable. -/
theorem planner_fallback_nonempty :
    (∀ (user_query : String) (context : List CtxMsg)
        (adjustment_suggestions : List String) (raw_kb : List KBResult)
        (nowIso : String) (ctxHash task_counter : Nat),
      (Planner.create_plan user_query context adjustment_suggestions raw_kb
          nowIso ctxHash task_counter).1 ≠ [])
    ∧ (∀ (user_request : String) (available_tools : List String)
        (task_counter : Nat), "general_query" ∈ available_tools →
      (Planner.plan user_request available_tools task_counter).1 ≠ []) := by
  constructor
  · intro q ctx adj kb nowIso h c
    exact fallback_map_ne_nil _ _ _
  · intro req tools c hgq
    exact fallback_if_ne_nil _ _ _ hgq

/-- C9 witness: concrete instances — `create_plan` on a bare query with an
empty context and no knowledge-base results, and `plan` with
`general_query` available. -/
theorem planner_fallback_nonempty_witness :
    (Planner.create_plan "市场热点" [] [] [] "t" 0 0).1 ≠ []
    ∧ (Planner.plan "hello" ["general_query"] 0).1 ≠ [] :=
  ⟨planner_fallback_nonempty.1 "市场热点" [] [] [] "t" 0 0,
   planner_fallback_nonempty.2 "hello" ["general_query"] 0 (by decide)⟩

/-- C10: `chat` always returns a dict whose top-level `status` is the
string `success` — even when the inner `process_request` result has
`status: error` — with the failure observable only through the embedded
`detailed_result` and the error text inside the `response` string. -/
theorem chat_status_always_success (result : PyVal) (session_id : String)
    (now : ℚ) :
    pyGet (PrivateAgent.chatReturn result session_id now) "status"
        = PyVal.str "success"
    ∧ pyGet (PrivateAgent.chatReturn result session_id now) "detailed_result"
        = result
    ∧ (∀ msg, result = processRequestError msg session_id →
        pyGet (PrivateAgent.chatReturn result session_id now) "response"
          = PyVal.str ("处理请求时出现错误: " ++ msg)) := by
  refine ⟨rfl, rfl, ?_⟩
  intro msg h
  subst h
  simp [PrivateAgent.chatReturn, processRequestError, pyGet, pyGetD, pyTruthy,
    pyEqStr, lookupA, pyStr, List.find?]

/-- C10 witness: the envelope around a concrete failed `process_request`
result. -/
theorem chat_status_always_success_witness :
    pyGet (PrivateAgent.chatReturn (processRequestError "boom" "sid1") "sid1" 0)
        "status" = PyVal.str "success"
    ∧ pyGet (PrivateAgent.chatReturn (processRequestError "boom" "sid1") "sid1" 0)
        "detailed_result" = processRequestError "boom" "sid1"
    ∧ pyGet (PrivateAgent.chatReturn (processRequestError "boom" "sid1") "sid1" 0)
        "response" = PyVal.str ("处理请求时出现错误: " ++ "boom") :=
  ⟨(chat_status_always_success (processRequestError "boom" "sid1") "sid1" 0).1,
   (chat_status_always_success (processRequestError "boom" "sid1") "sid1" 0).2.1,
   (chat_status_always_success (processRequestError "boom" "sid1") "sid1" 0).2.2
     "boom" rfl⟩

end WealthAgents
